import Mathlib

/-!
# Verification of the Mining Equipment Selector repository

This file gives a shallow embedding of the decision logic of the
repository (the equipment compatibility scoring engine, the equipment
requirement form validation, and the dragline balance calculator of the
dragline modal), together with theorems settling the specification's
claims about them.

Numbers handled by the JavaScript/Python code are embedded as exact
rationals (`ℚ`); scores are integers (`Int`); strings are `String`.
-/

namespace Selector

/-- Eligibility conditions of one equipment record: the per-record rule
set describing which requirements it satisfies.  An empty set is the
wildcard "no restriction". -/
structure Eligibility where
  operation_types : List String
  material_types : List String
  production_min : ℚ
  production_max : ℚ
  working_conditions : List String
deriving DecidableEq, Repr

/-- An equipment record as stored in the catalog: display fields plus
the eligibility conditions. -/
structure EquipmentRecord where
  id : Nat
  name : String
  type : String
  capacity : String
  specifications : String
  eligibility : Eligibility
deriving DecidableEq, Repr

/-- The caller-supplied mining-operation parameters driving a single
selection request. -/
structure Requirement where
  operation_type : String
  material_type : String
  production_target : ℚ
  working_conditions : String
deriving DecidableEq, Repr

/-- One scored output entry: the record's display fields plus the
compatibility score and the justification strings. -/
structure ScoredEquipment where
  id : Nat
  name : String
  type : String
  capacity : String
  specifications : String
  compatibility_score : Int
  reasons : List String
deriving DecidableEq, Repr

/-- Modelled from the spec: the engine's minimum-score cut-off
(`selector.py` is not under `src/`; the spec fixes the default to 1). -/
def MINIMUM_THRESHOLD : Int := 1

/-- Modelled from the spec: operation-type criterion of
`calculate_compatibility_score` (`selector.py` is not under `src/`):
the requirement's operation type is a member of the record's
`operation_types`, or the record declares no restriction (empty set). -/
def opMatch (req : Requirement) (e : Eligibility) : Bool :=
  e.operation_types.isEmpty || e.operation_types.contains req.operation_type

/-- Modelled from the spec: material-type criterion, same membership
policy against `material_types`. -/
def matMatch (req : Requirement) (e : Eligibility) : Bool :=
  e.material_types.isEmpty || e.material_types.contains req.material_type

/-- Modelled from the spec: working-conditions criterion, same
membership policy against `working_conditions`. -/
def wcMatch (req : Requirement) (e : Eligibility) : Bool :=
  e.working_conditions.isEmpty || e.working_conditions.contains req.working_conditions

/-- Reason string for a satisfied operation-type criterion. -/
def opReason (req : Requirement) : String :=
  "Suitable for " ++ req.operation_type ++ " operations"

/-- Reason string for a satisfied material-type criterion. -/
def matReason (req : Requirement) : String :=
  "Designed for " ++ req.material_type ++ " handling"

/-- Reason string for a production target inside the record's range. -/
def prodMatchReason (target : ℚ) : String :=
  "Production capacity matches target (" ++ toString target ++ " tons/day)"

/-- Reason string for a production target within the 20% tolerance band. -/
def prodCloseReason : String :=
  "Production capacity close to target"

/-- Reason string for a satisfied working-conditions criterion. -/
def wcReason (req : Requirement) : String :=
  "Meets " ++ req.working_conditions ++ " operating requirements"

/-- Modelled from the spec: production-target criterion of
`calculate_compatibility_score` (`selector.py` is not under `src/`).
Returns the awarded points together with the appended reason, if any:
25 points when the target lies within the range inclusive, 10 points
when the target is within 20% outside the range on either side,
otherwise no credit and no reason. -/
def productionFit (target mn mx : ℚ) : Int × Option String :=
  if mn ≤ target ∧ target ≤ mx then
    (25, some (prodMatchReason target))
  else if (target < mn ∧ 4/5 * mn ≤ target) ∨ (mx < target ∧ target ≤ 6/5 * mx) then
    (10, some prodCloseReason)
  else
    (0, none)

/-- Modelled from the spec: per-record evaluation of
`calculate_compatibility_score` (`selector.py` is not under `src/`):
the four weighted criteria are evaluated independently in fixed order,
points are accumulated, the reasons are appended in the same order, and
the final score is clamped to `[0, 100]`. -/
def scoreEntry (req : Requirement) (rec : EquipmentRecord) : ScoredEquipment :=
  let e := rec.eligibility
  let s1 : Int := if opMatch req e then 30 else 0
  let r1 : List String := if opMatch req e then [opReason req] else []
  let s2 : Int := if matMatch req e then 30 else 0
  let r2 : List String := if matMatch req e then [matReason req] else []
  let p := productionFit req.production_target e.production_min e.production_max
  let s4 : Int := if wcMatch req e then 15 else 0
  let r4 : List String := if wcMatch req e then [wcReason req] else []
  { id := rec.id
    name := rec.name
    type := rec.type
    capacity := rec.capacity
    specifications := rec.specifications
    compatibility_score := max 0 (min 100 (s1 + s2 + p.1 + s4))
    reasons := r1 ++ r2 ++ p.2.toList ++ r4 }

/-- Descending comparison on compatibility scores, the sort key of the
result list. -/
def scoreGE (a b : ScoredEquipment) : Bool :=
  decide (b.compatibility_score ≤ a.compatibility_score)

/-- Modelled from the spec: the entries surviving the threshold filter,
in original catalog order. -/
def keptEntries (req : Requirement) (catalog : List EquipmentRecord) :
    List ScoredEquipment :=
  (catalog.map (scoreEntry req)).filter
    (fun e => MINIMUM_THRESHOLD ≤ e.compatibility_score)

/-- Modelled from the spec: `select(requirement, catalog)` of
`selector.py` (not under `src/`): score every catalog entry, discard
entries below the minimum threshold, and stably sort the survivors by
descending compatibility score. -/
def select (req : Requirement) (catalog : List EquipmentRecord) :
    List ScoredEquipment :=
  (keptEntries req catalog).mergeSort scoreGE

/-- Modelled from the spec: one engine invocation at the request
boundary, returning the response together with the catalog as the
engine leaves it (the engine is read-only: the catalog comes back
unchanged). -/
def runSelect (req : Requirement) (catalog : List EquipmentRecord) :
    List ScoredEquipment × List EquipmentRecord :=
  (select req catalog, catalog)

/-- The number of satisfied weighted criteria of a record against a
requirement: a criterion counts as satisfied exactly when it awarded
credit (for the production criterion, full or partial). -/
def satisfiedCount (req : Requirement) (rec : EquipmentRecord) : Nat :=
  (if opMatch req rec.eligibility then 1 else 0) +
    (if matMatch req rec.eligibility then 1 else 0) +
    (if (productionFit req.production_target rec.eligibility.production_min
        rec.eligibility.production_max).2.isSome then 1 else 0) +
    (if wcMatch req rec.eligibility then 1 else 0)

/-- The example requirement of the spec's testable properties:
Surface Mining, Coal, target 5000 tons/day, Standard conditions. -/
def exampleReq : Requirement :=
  { operation_type := "Surface Mining"
    material_type := "Coal"
    production_target := 5000
    working_conditions := "Standard" }

/-- The spec's fully matching example record: eligibility covers the
example requirement on all four criteria, production range
`(3000, 6000)`. -/
def fullMatchRec : EquipmentRecord :=
  { id := 1
    name := "CAT 992K Loader"
    type := "Loader"
    capacity := "9.2 m³"
    specifications := "Wheel loader, diesel engine, 650 HP"
    eligibility :=
      { operation_types := ["Surface Mining"]
        material_types := ["Coal"]
        production_min := 3000
        production_max := 6000
        working_conditions := ["Standard"] } }

/-- The spec's partial-credit example record: same eligibility as
`fullMatchRec` except that the production range is `(6200, 9000)`, so
the target 5000 falls outside the range but within the 20% band. -/
def closeRangeRec : EquipmentRecord :=
  { id := 2
    name := "CAT 992K Loader"
    type := "Loader"
    capacity := "9.2 m³"
    specifications := "Wheel loader, diesel engine, 650 HP"
    eligibility :=
      { operation_types := ["Surface Mining"]
        material_types := ["Coal"]
        production_min := 6200
        production_max := 9000
        working_conditions := ["Standard"] } }

end Selector

namespace EquipmentForm

/-- The form state of `EquipmentForm.js`: the four requirement fields,
each held as the raw string from the corresponding form control. -/
structure FormData where
  operation_type : String
  material_type : String
  production_target : String
  working_conditions : String
deriving DecidableEq, Repr

/-- The per-field error messages computed by `validateForm` of
`EquipmentForm.js` (`none` means the field has no error). -/
structure FormErrors where
  operation_type : Option String
  material_type : Option String
  production_target : Option String
  working_conditions : Option String
deriving DecidableEq, Repr

/-- The `newErrors` object built by `validateForm` of
`EquipmentForm.js`.  `toNumber` embeds the environment's string-to-number
coercion (JavaScript `Number(s)`, with `none` standing for `NaN`, so that
`isNaN(s) || Number(s) <= 0` becomes the match below); an empty string is
falsy, so `!formData.f` is the test `f = ""`. -/
def validateErrors (toNumber : String → Option ℚ) (fd : FormData) : FormErrors :=
  { operation_type :=
      if fd.operation_type = "" then some "Operation type is required" else none
    material_type :=
      if fd.material_type = "" then some "Material type is required" else none
    production_target :=
      if fd.production_target = "" then some "Production target is required"
      else
        match toNumber fd.production_target with
        | none => some "Production target must be a positive number"
        | some v =>
          if v ≤ 0 then some "Production target must be a positive number" else none
    working_conditions :=
      if fd.working_conditions = "" then some "Working conditions are required" else none }

/-- `validateForm` of `EquipmentForm.js`: true when the `newErrors`
object has no keys, i.e. every field validated cleanly. -/
def validateForm (toNumber : String → Option ℚ) (fd : FormData) : Bool :=
  let e := validateErrors toNumber fd
  e.operation_type.isNone && e.material_type.isNone &&
    e.production_target.isNone && e.working_conditions.isNone

/-- `handleSubmit` of `EquipmentForm.js`, up to the point where the
request leaves the form: when `validateForm` fails it returns without
issuing a request (`none`); otherwise the selection request carrying the
form data is issued (`some fd`). -/
def handleSubmit (toNumber : String → Option ℚ) (fd : FormData) :
    Option FormData :=
  if validateForm toNumber fd then some fd else none

/-- A concrete string-to-number coercion for witnesses: parses only the
digit string `"5000"`. -/
def exampleToNumber : String → Option ℚ :=
  fun s => if s = "5000" then some 5000 else none

/-- A concrete well-formed form state. -/
def exampleFormData : FormData :=
  { operation_type := "Surface Mining"
    material_type := "Coal"
    production_target := "5000"
    working_conditions := "Standard" }

/-- The initial form state: all four fields empty. -/
def emptyFormData : FormData :=
  { operation_type := ""
    material_type := ""
    production_target := ""
    working_conditions := "" }

end EquipmentForm

namespace Dragline

/-- A JavaScript number as far as the dragline modal manipulates one:
`NaN`, the two infinities, or a finite value (embedded exactly as a
rational). -/
inductive JSNum where
  | nan : JSNum
  | posInf : JSNum
  | negInf : JSNum
  | num : ℚ → JSNum
deriving DecidableEq, Repr

/-- JavaScript truthiness of a number: `NaN` and `±0` are falsy, every
other number (infinities included) is truthy. -/
def JSNum.truthy : JSNum → Bool
  | .nan => false
  | .num q => decide (q ≠ 0)
  | _ => true

/-- The JavaScript `a || b` operator restricted to numbers: `a` when
`a` is truthy, otherwise `b`. -/
def jsOr (a b : JSNum) : JSNum :=
  if a.truthy then a else b

/-- The value `handleInputChange` of the dragline modal stores for a
field: `parseFloat(value) || 0`, applied to the already-parsed result
of `parseFloat` (so `parsed = JSNum.nan` for text with no leading
number, and `parsed = JSNum.posInf` for text such as `"1e999"`, which
`parseFloat` evaluates to `Infinity`). -/
def storedValue (parsed : JSNum) : JSNum :=
  jsOr parsed (JSNum.num 0)

/-- The eleven numeric input fields of the dragline modal's state. -/
inductive Field where
  | draglineReach | benchHeight | cutWidth
  | coalSeamThickness | overburdenThickness | swellFactor
  | dumpSlope | highwallSlope | coalSeamDip
  | haulDistance | spoilHeight
deriving DecidableEq, Repr

/-- The modal's `inputs` state: a value for every field. -/
def ModalState := Field → JSNum

/-- The initial `useState` value of `inputs` in the dragline modal. -/
def initialState : ModalState
  | .draglineReach => .num 100
  | .benchHeight => .num 30
  | .cutWidth => .num 40
  | .coalSeamThickness => .num 5
  | .overburdenThickness => .num 25
  | .swellFactor => .num (6/5)
  | .dumpSlope => .num 37
  | .highwallSlope => .num 70
  | .coalSeamDip => .num 5
  | .haulDistance => .num 200
  | .spoilHeight => .num 35

/-- One `handleInputChange` step: the named field is overwritten with
`parseFloat(value) || 0`, every other field is kept. -/
def handleInputChange (st : ModalState) (f : Field) (parsed : JSNum) :
    ModalState :=
  fun g => if g = f then storedValue parsed else st g

/-- The modal states reachable from the initial state by any sequence
of `handleInputChange` events. -/
inductive Reachable : ModalState → Prop where
  | init : Reachable initialState
  | step (st : ModalState) (f : Field) (parsed : JSNum) :
      Reachable st → Reachable (handleInputChange st f parsed)

/-- The numeric inputs of `calculateDraglineBalance`, read from the
modal state (all finite in the intended runs). -/
structure DraglineInputs where
  draglineReach : ℚ
  benchHeight : ℚ
  cutWidth : ℚ
  coalSeamThickness : ℚ
  overburdenThickness : ℚ
  swellFactor : ℚ
  dumpSlope : ℚ
  highwallSlope : ℚ
  coalSeamDip : ℚ
  haulDistance : ℚ
  spoilHeight : ℚ
deriving DecidableEq, Repr

/-- The results computed by `calculateDraglineBalance`, before the
`toFixed(2)` decimal formatting applied for display. -/
structure DraglineResults where
  firstDigArea : ℚ
  dumpingArea : ℚ
  swelledOverburden : ℚ
  rehandlingPercentage : ℚ
  coalExposureArea : ℚ
  coalExposureRate : ℚ
  operationalEfficiency : ℚ
deriving DecidableEq, Repr

/-- `calculateDraglineBalance` of the dragline modal, over exact
rationals.  (`dumpSlopeRad` is computed by the source but never used,
so it does not appear here.) -/
def calculateDraglineBalance (i : DraglineInputs) : DraglineResults :=
  let firstDigArea := i.cutWidth * i.overburdenThickness
  let maxDumpWidth := i.draglineReach * (7/10)
  let dumpingArea := maxDumpWidth * i.spoilHeight / 2
  let swelledOverburden := firstDigArea * i.swellFactor
  let rehandlingPercentage :=
    max 0 (((swelledOverburden - dumpingArea) / swelledOverburden) * 100)
  let coalExposureArea := i.cutWidth * i.coalSeamThickness
  let coalExposureRate := coalExposureArea / (i.benchHeight / 10)
  let operationalEfficiency :=
    min 100 ((dumpingArea / swelledOverburden) * 100)
  { firstDigArea := firstDigArea
    dumpingArea := dumpingArea
    swelledOverburden := swelledOverburden
    rehandlingPercentage := rehandlingPercentage
    coalExposureArea := coalExposureArea
    coalExposureRate := coalExposureRate
    operationalEfficiency := operationalEfficiency }

/-- Default dragline inputs, matching the modal's initial state. -/
def exampleInputs : DraglineInputs :=
  { draglineReach := 100
    benchHeight := 30
    cutWidth := 40
    coalSeamThickness := 5
    overburdenThickness := 25
    swellFactor := 6/5
    dumpSlope := 37
    highwallSlope := 70
    coalSeamDip := 5
    haulDistance := 200
    spoilHeight := 35 }

end Dragline

/-! ## Helper lemmas for the scoring engine -/

namespace Selector

/-- The production criterion evaluates to one of exactly three
outcomes: full credit, partial credit, or no credit. -/
theorem productionFit_cases (t mn mx : ℚ) :
    productionFit t mn mx = (25, some (prodMatchReason t)) ∨
      productionFit t mn mx = (10, some prodCloseReason) ∨
      productionFit t mn mx = (0, none) := by
  unfold productionFit
  split
  · exact Or.inl rfl
  split
  · exact Or.inr (Or.inl rfl)
  · exact Or.inr (Or.inr rfl)

/-- The clamp in `scoreEntry` never fires: the compatibility score is
literally the sum of the four criteria's credits. -/
theorem scoreEntry_score (req : Requirement) (rec : EquipmentRecord) :
    (scoreEntry req rec).compatibility_score =
      (if opMatch req rec.eligibility then 30 else 0) +
        (if matMatch req rec.eligibility then 30 else 0) +
        (productionFit req.production_target rec.eligibility.production_min
          rec.eligibility.production_max).1 +
        (if wcMatch req rec.eligibility then 15 else 0) := by
  rcases productionFit_cases req.production_target rec.eligibility.production_min
      rec.eligibility.production_max with h | h | h <;>
    cases hop : opMatch req rec.eligibility <;>
      cases hmat : matMatch req rec.eligibility <;>
        cases hwc : wcMatch req rec.eligibility <;>
          simp [scoreEntry, hop, hmat, hwc, h]

/-- The reasons list of `scoreEntry` is the concatenation of the four
criteria's reasons in evaluation order. -/
theorem scoreEntry_reasons (req : Requirement) (rec : EquipmentRecord) :
    (scoreEntry req rec).reasons =
      (if opMatch req rec.eligibility then [opReason req] else []) ++
        (if matMatch req rec.eligibility then [matReason req] else []) ++
        (productionFit req.production_target rec.eligibility.production_min
          rec.eligibility.production_max).2.toList ++
        (if wcMatch req rec.eligibility then [wcReason req] else []) := rfl

/-- The descending-score comparison is transitive. -/
theorem scoreGE_trans (a b c : ScoredEquipment) :
    scoreGE a b → scoreGE b c → scoreGE a c := by
  simp only [scoreGE, decide_eq_true_eq]
  omega

/-- The descending-score comparison is total. -/
theorem scoreGE_total (a b : ScoredEquipment) :
    scoreGE a b || scoreGE b a := by
  simp only [scoreGE, Bool.or_eq_true, decide_eq_true_eq]
  omega

/-- Membership in the selection result coincides with membership in
the threshold-filtered list. -/
theorem mem_select (req : Requirement) (cat : List EquipmentRecord)
    (e : ScoredEquipment) :
    e ∈ select req cat ↔ e ∈ keptEntries req cat := by
  simp [select]

/-- A list whose elements all carry the same score is sorted for the
descending comparison. -/
theorem pairwise_scoreGE_filter (l : List ScoredEquipment) (s : Int) :
    (l.filter (fun e => decide (e.compatibility_score = s))).Pairwise
      (fun a b => scoreGE a b = true) := by
  apply List.pairwise_of_forall_mem_list
  intro a ha b hb
  have ha' := (List.mem_filter.mp ha).2
  have hb' := (List.mem_filter.mp hb).2
  simp only [decide_eq_true_eq] at ha' hb'
  simp [scoreGE, ha', hb']

/-- Evaluation of the production criterion on the spec's full-match
example: target 5000 against range `(3000, 6000)`. -/
theorem productionFit_example_full :
    productionFit (5000 : ℚ) 3000 6000 = (25, some (prodMatchReason 5000)) := by
  simp only [productionFit]
  rw [if_pos (by norm_num)]

/-- Evaluation of the production criterion on the spec's partial-credit
example: target 5000 against range `(6200, 9000)` falls in the 20%
band below the range. -/
theorem productionFit_example_close :
    productionFit (5000 : ℚ) 6200 9000 = (10, some prodCloseReason) := by
  simp only [productionFit]
  rw [if_neg (by norm_num), if_pos (by norm_num)]

/-- The spec's full-match example record scores 100 against the example
requirement. -/
theorem scoreEntry_example_full_score :
    (scoreEntry exampleReq fullMatchRec).compatibility_score = 100 := by
  have hp : productionFit exampleReq.production_target
      fullMatchRec.eligibility.production_min
      fullMatchRec.eligibility.production_max = (25, some (prodMatchReason 5000)) :=
    productionFit_example_full
  rw [scoreEntry_score, hp]
  decide

/-- The spec's full-match example record gets all four reasons. -/
theorem scoreEntry_example_full_reasons :
    (scoreEntry exampleReq fullMatchRec).reasons.length = 4 := by
  have hp : productionFit exampleReq.production_target
      fullMatchRec.eligibility.production_min
      fullMatchRec.eligibility.production_max = (25, some (prodMatchReason 5000)) :=
    productionFit_example_full
  rw [scoreEntry_reasons, hp]
  decide

/-- On the single-record catalog made of the full-match example, the
threshold filter keeps the record. -/
theorem keptEntries_example :
    keptEntries exampleReq [fullMatchRec] = [scoreEntry exampleReq fullMatchRec] := by
  simp [keptEntries, MINIMUM_THRESHOLD, List.filter, scoreEntry_example_full_score]

/-- `select` on the single-record full-match catalog returns exactly
that scored record. -/
theorem select_example_singleton :
    select exampleReq [fullMatchRec] = [scoreEntry exampleReq fullMatchRec] := by
  rw [select, keptEntries_example, List.mergeSort_singleton]

end Selector

/-! ## Claim theorems -/

namespace Selector

/-- C1: For every requirement and catalog entry, the entry's score is
the sum of exactly four weighted criteria evaluated independently
(30 for operation type, 30 for material type, 25 or 10 for the
production-target fit, 15 for working conditions, each with its reason
appended on success), and a record scores exactly 100 precisely when
all four criteria are fully satisfied. -/
theorem score_decomposition_and_perfect_iff (req : Requirement) (rec : EquipmentRecord) :
    (scoreEntry req rec).compatibility_score =
        (if opMatch req rec.eligibility then 30 else 0) +
          (if matMatch req rec.eligibility then 30 else 0) +
          (productionFit req.production_target rec.eligibility.production_min
            rec.eligibility.production_max).1 +
          (if wcMatch req rec.eligibility then 15 else 0) ∧
      (scoreEntry req rec).reasons =
        (if opMatch req rec.eligibility then [opReason req] else []) ++
          (if matMatch req rec.eligibility then [matReason req] else []) ++
          (productionFit req.production_target rec.eligibility.production_min
            rec.eligibility.production_max).2.toList ++
          (if wcMatch req rec.eligibility then [wcReason req] else []) ∧
      ((scoreEntry req rec).compatibility_score = 100 ↔
        (opMatch req rec.eligibility ∧ matMatch req rec.eligibility ∧
          (productionFit req.production_target rec.eligibility.production_min
            rec.eligibility.production_max).1 = 25 ∧ wcMatch req rec.eligibility)) := by
  refine ⟨scoreEntry_score req rec, scoreEntry_reasons req rec, ?_⟩
  rw [scoreEntry_score]
  rcases productionFit_cases req.production_target rec.eligibility.production_min
      rec.eligibility.production_max with h | h | h <;>
    cases hop : opMatch req rec.eligibility <;>
      cases hmat : matMatch req rec.eligibility <;>
        cases hwc : wcMatch req rec.eligibility <;>
          simp [h, hop, hmat, hwc]

/-- C2: The production-target criterion awards exactly 25 points with
the matches-target reason inside the range, exactly 10 points with the
close-to-target reason within 20% outside the range on either side, and
0 points with no reason otherwise; the spec's partial-credit example
record with range `(6200, 9000)` scores 85 against the example
requirement with target 5000. -/
theorem production_fit_policy :
    (∀ target mn mx : ℚ,
        ((mn ≤ target ∧ target ≤ mx) →
          productionFit target mn mx = (25, some (prodMatchReason target))) ∧
        (¬(mn ≤ target ∧ target ≤ mx) →
          ((target < mn ∧ 4/5 * mn ≤ target) ∨ (mx < target ∧ target ≤ 6/5 * mx)) →
          productionFit target mn mx = (10, some prodCloseReason)) ∧
        (¬(mn ≤ target ∧ target ≤ mx) →
          ¬((target < mn ∧ 4/5 * mn ≤ target) ∨ (mx < target ∧ target ≤ 6/5 * mx)) →
          productionFit target mn mx = (0, none))) ∧
      (scoreEntry exampleReq closeRangeRec).compatibility_score = 85 := by
  constructor
  · intro target mn mx
    refine ⟨fun h => ?_, fun h1 h2 => ?_, fun h1 h2 => ?_⟩
    · simp only [productionFit]
      rw [if_pos h]
    · simp only [productionFit]
      rw [if_neg h1, if_pos h2]
    · simp only [productionFit]
      rw [if_neg h1, if_neg h2]
  · have hp : productionFit exampleReq.production_target
        closeRangeRec.eligibility.production_min
        closeRangeRec.eligibility.production_max = (10, some prodCloseReason) :=
      productionFit_example_close
    rw [scoreEntry_score, hp]
    decide

/-- Witness for C2: the partial-credit branch fires at the concrete
example input (target 5000, range `(6200, 9000)`). -/
theorem production_fit_policy_witness :
    productionFit (5000 : ℚ) 6200 9000 = (10, some prodCloseReason) :=
  (production_fit_policy.1 5000 6200 9000).2.1 (by norm_num) (by norm_num)

/-- C6: For every well-formed requirement, `select` on the empty
catalog returns the empty sequence (a valid input, not an error). -/
theorem select_empty_catalog (req : Requirement) : select req [] = [] := by
  simp [select, keptEntries]

/-- C7: the engine is a pure function of its two inputs: an invocation
leaves the catalog unchanged, and a second invocation on the state left
behind by the first returns the identical output sequence. -/
theorem select_pure_readonly (req : Requirement) (catalog : List EquipmentRecord) :
    (runSelect req catalog).2 = catalog ∧
      (runSelect req (runSelect req catalog).2).1 = (runSelect req catalog).1 ∧
      runSelect req catalog = (select req catalog, catalog) :=
  ⟨rfl, rfl, rfl⟩

end Selector

namespace Selector

/-- C3: The sequence returned by `select` is sorted by compatibility
score in descending order, and entries with equal scores keep their
relative input order: restricted to any fixed score, the output equals
the surviving entries in original catalog order (stability), so the
output is a deterministic function of the inputs. -/
theorem select_sorted_descending_stable (req : Requirement) (cat : List EquipmentRecord) :
    (select req cat).Pairwise
        (fun a b => b.compatibility_score ≤ a.compatibility_score) ∧
      ∀ s : Int,
        (select req cat).filter (fun e => decide (e.compatibility_score = s)) =
          (keptEntries req cat).filter (fun e => decide (e.compatibility_score = s)) := by
  constructor
  · have h := List.sorted_mergeSort scoreGE_trans scoreGE_total (keptEntries req cat)
    exact h.imp fun hab => by simpa [scoreGE, decide_eq_true_eq] using hab
  · intro s
    have hpair := pairwise_scoreGE_filter (keptEntries req cat) s
    have hsub : List.Sublist
        ((keptEntries req cat).filter (fun e => decide (e.compatibility_score = s)))
        (select req cat) :=
      List.sublist_mergeSort scoreGE_trans scoreGE_total hpair (List.filter_sublist _)
    have hsub2 : List.Sublist
        ((keptEntries req cat).filter (fun e => decide (e.compatibility_score = s)))
        ((select req cat).filter (fun e => decide (e.compatibility_score = s))) := by
      have h2 := hsub.filter (fun e => decide (e.compatibility_score = s))
      rwa [List.filter_filter, show (fun a => decide (a.compatibility_score = s) &&
        decide (a.compatibility_score = s)) = fun e : ScoredEquipment =>
        decide (e.compatibility_score = s) from by funext a; rw [Bool.and_self]] at h2
    have hperm : List.Perm
        ((select req cat).filter (fun e => decide (e.compatibility_score = s)))
        ((keptEntries req cat).filter (fun e => decide (e.compatibility_score = s))) :=
      (List.mergeSort_perm (keptEntries req cat) scoreGE).filter _
    exact (hsub2.eq_of_length hperm.length_eq.symm).symm

/-- C4: Every entry returned by `select` has an integer compatibility
score clamped to `[0, 100]`, the reasons list length equals the number
of satisfied weighted criteria, and the spec's fully matching example
yields score 100 with 4 reasons. -/
theorem select_score_bounds_reasons :
    (∀ (req : Requirement) (cat : List EquipmentRecord),
        ∀ e ∈ select req cat,
          0 ≤ e.compatibility_score ∧ e.compatibility_score ≤ 100) ∧
      (∀ (req : Requirement) (rec : EquipmentRecord),
        (scoreEntry req rec).reasons.length = satisfiedCount req rec) ∧
      (scoreEntry exampleReq fullMatchRec).compatibility_score = 100 ∧
      (scoreEntry exampleReq fullMatchRec).reasons.length = 4 := by
  refine ⟨?_, ?_, scoreEntry_example_full_score, scoreEntry_example_full_reasons⟩
  · intro req cat e he
    rcases List.mem_filter.mp ((mem_select req cat e).mp he) with ⟨hmap, -⟩
    rcases List.mem_map.mp hmap with ⟨rec, -, rfl⟩
    rcases productionFit_cases req.production_target rec.eligibility.production_min
        rec.eligibility.production_max with h | h | h <;>
      cases hop : opMatch req rec.eligibility <;>
        cases hmat : matMatch req rec.eligibility <;>
          cases hwc : wcMatch req rec.eligibility <;>
            simp [scoreEntry_score, h, hop, hmat, hwc]
  · intro req rec
    rcases productionFit_cases req.production_target rec.eligibility.production_min
        rec.eligibility.production_max with h | h | h <;>
      cases hop : opMatch req rec.eligibility <;>
        cases hmat : matMatch req rec.eligibility <;>
          cases hwc : wcMatch req rec.eligibility <;>
            simp [scoreEntry_reasons, satisfiedCount, h, hop, hmat, hwc]

/-- Witness for C4: the bounds hold for the entry returned on the
concrete single-record example catalog. -/
theorem select_score_bounds_reasons_witness :
    0 ≤ (scoreEntry exampleReq fullMatchRec).compatibility_score ∧
      (scoreEntry exampleReq fullMatchRec).compatibility_score ≤ 100 :=
  select_score_bounds_reasons.1 exampleReq [fullMatchRec]
    (scoreEntry exampleReq fullMatchRec)
    (by rw [select_example_singleton]; exact List.mem_singleton.mpr rfl)

/-- C5: A catalog entry appears in the result of `select` exactly when
its score reaches `MINIMUM_THRESHOLD`; in particular every returned
entry has score at least the threshold, and zero-credit entries are
excluded. -/
theorem select_threshold_filter (req : Requirement) (cat : List EquipmentRecord)
    (rec : EquipmentRecord) (hrec : rec ∈ cat) :
    (scoreEntry req rec ∈ select req cat ↔
        MINIMUM_THRESHOLD ≤ (scoreEntry req rec).compatibility_score) ∧
      ∀ e ∈ select req cat, MINIMUM_THRESHOLD ≤ e.compatibility_score := by
  constructor
  · rw [mem_select]
    constructor
    · intro h
      have h2 := (List.mem_filter.mp h).2
      simpa using h2
    · intro h
      exact List.mem_filter.mpr ⟨List.mem_map.mpr ⟨rec, hrec, rfl⟩, by simpa using h⟩
  · intro e he
    have h2 := (List.mem_filter.mp ((mem_select req cat e).mp he)).2
    simpa using h2

/-- Witness for C5: instantiated on the concrete single-record example
catalog. -/
theorem select_threshold_filter_witness :
    (scoreEntry exampleReq fullMatchRec ∈ select exampleReq [fullMatchRec] ↔
        MINIMUM_THRESHOLD ≤ (scoreEntry exampleReq fullMatchRec).compatibility_score) ∧
      ∀ e ∈ select exampleReq [fullMatchRec],
        MINIMUM_THRESHOLD ≤ e.compatibility_score :=
  select_threshold_filter exampleReq [fullMatchRec] fullMatchRec
    (List.mem_singleton.mpr rfl)

end Selector

namespace EquipmentForm

/-- C8: the form submits the selection request exactly when all four
fields are non-empty and the production target coerces to a positive
number; otherwise submission stops before any request, and each
violated field gets its error message. -/
theorem submit_iff_valid (toNumber : String → Option ℚ) (fd : FormData) :
    ((handleSubmit toNumber fd).isSome ↔
        (fd.operation_type ≠ "" ∧ fd.material_type ≠ "" ∧
          fd.production_target ≠ "" ∧ fd.working_conditions ≠ "" ∧
          ∃ v, toNumber fd.production_target = some v ∧ 0 < v)) ∧
      (validateForm toNumber fd = false → handleSubmit toNumber fd = none) ∧
      (fd.operation_type = "" →
        (validateErrors toNumber fd).operation_type =
          some "Operation type is required") ∧
      (fd.material_type = "" →
        (validateErrors toNumber fd).material_type =
          some "Material type is required") ∧
      (fd.production_target = "" →
        (validateErrors toNumber fd).production_target =
          some "Production target is required") ∧
      (fd.working_conditions = "" →
        (validateErrors toNumber fd).working_conditions =
          some "Working conditions are required") ∧
      (fd.production_target ≠ "" → toNumber fd.production_target = none →
        (validateErrors toNumber fd).production_target =
          some "Production target must be a positive number") ∧
      (∀ v, fd.production_target ≠ "" → toNumber fd.production_target = some v →
        v ≤ 0 →
        (validateErrors toNumber fd).production_target =
          some "Production target must be a positive number") := by
  have hcore : validateForm toNumber fd = true ↔
      (fd.operation_type ≠ "" ∧ fd.material_type ≠ "" ∧
        fd.production_target ≠ "" ∧ fd.working_conditions ≠ "" ∧
        ∃ v, toNumber fd.production_target = some v ∧ 0 < v) := by
    unfold validateForm validateErrors
    rcases htn : toNumber fd.production_target with _ | v <;>
      by_cases h1 : fd.operation_type = "" <;>
        by_cases h2 : fd.material_type = "" <;>
          by_cases h3 : fd.production_target = "" <;>
            by_cases h4 : fd.working_conditions = "" <;>
              simp [htn, h1, h2, h3, h4, Option.isNone_iff_eq_none,
                ite_eq_right_iff, not_le]
  refine ⟨?_, ?_, ?_, ?_, ?_, ?_, ?_, ?_⟩
  · rw [show (handleSubmit toNumber fd).isSome = (validateForm toNumber fd) from ?_,
      ← hcore]
    unfold handleSubmit
    by_cases hv : validateForm toNumber fd <;> simp [hv]
  · intro hv
    unfold handleSubmit
    simp [hv]
  · intro h
    simp [validateErrors, h]
  · intro h
    simp [validateErrors, h]
  · intro h
    simp [validateErrors, h]
  · intro h
    simp [validateErrors, h]
  · intro hne htn
    simp [validateErrors, hne, htn]
  · intro v hne htn hle
    simp [validateErrors, hne, htn, hle]

/-- Witness for C8: the well-formed concrete form submits, and the
empty form gets the operation-type error message. -/
theorem submit_iff_valid_witness :
    (handleSubmit exampleToNumber exampleFormData).isSome ∧
      (validateErrors exampleToNumber emptyFormData).operation_type =
        some "Operation type is required" :=
  ⟨(submit_iff_valid exampleToNumber exampleFormData).1.mpr
      ⟨by simp [exampleFormData], by simp [exampleFormData],
        by simp [exampleFormData], by simp [exampleFormData],
        5000, by simp [exampleFormData, exampleToNumber], by norm_num⟩,
    (submit_iff_valid exampleToNumber emptyFormData).2.2.1 rfl⟩

end EquipmentForm

namespace Dragline

/-- C9: whenever the swelled overburden is strictly positive, the
computed rehandling percentage and operational efficiency (before
decimal formatting) are complementary — they sum to exactly 100 — with
the rehandling percentage clamped to at least 0 and the efficiency
clamped to at most 100. -/
theorem rehandling_efficiency_complementary (i : DraglineInputs)
    (h : 0 < i.cutWidth * i.overburdenThickness * i.swellFactor) :
    (calculateDraglineBalance i).rehandlingPercentage +
        (calculateDraglineBalance i).operationalEfficiency = 100 ∧
      0 ≤ (calculateDraglineBalance i).rehandlingPercentage ∧
      (calculateDraglineBalance i).operationalEfficiency ≤ 100 := by
  have hS : i.cutWidth * i.overburdenThickness * i.swellFactor ≠ 0 := ne_of_gt h
  simp only [calculateDraglineBalance]
  refine ⟨?_, le_max_left _ _, min_le_left _ _⟩
  set S := i.cutWidth * i.overburdenThickness * i.swellFactor with hSdef
  set D := i.draglineReach * (7/10) * i.spoilHeight / 2 with hDdef
  have key : (S - D) / S * 100 = 100 - D / S * 100 := by
    field_simp
    ring
  rw [key]
  rcases le_total (D / S * 100) 100 with hx | hx
  · rw [max_eq_right (by linarith), min_eq_right hx]
    ring
  · rw [max_eq_left (by linarith), min_eq_left hx]
    norm_num

/-- Witness for C9: the modal's default inputs have positive swelled
overburden, and the conclusion holds there. -/
theorem rehandling_efficiency_complementary_witness :
    0 < exampleInputs.cutWidth * exampleInputs.overburdenThickness *
          exampleInputs.swellFactor ∧
      (calculateDraglineBalance exampleInputs).rehandlingPercentage +
          (calculateDraglineBalance exampleInputs).operationalEfficiency = 100 ∧
        0 ≤ (calculateDraglineBalance exampleInputs).rehandlingPercentage ∧
        (calculateDraglineBalance exampleInputs).operationalEfficiency ≤ 100 :=
  ⟨by norm_num [exampleInputs],
    rehandling_efficiency_complementary exampleInputs (by norm_num [exampleInputs])⟩

/-- Counterexample for C10 as stated: `parseFloat` yields `Infinity`
on input text such as `"1e999"`, which is not a nonzero finite number,
yet `parseFloat(value) || 0` stores `Infinity` rather than
substituting 0. -/
theorem stored_infinity_counterexample :
    storedValue JSNum.posInf = JSNum.posInf ∧
      storedValue JSNum.posInf ≠ JSNum.num 0 := by
  constructor
  · rfl
  · simp [storedValue, jsOr, JSNum.truthy]

/-- C10 (amended): every change to a numeric field stores the
`parseFloat` of the text, substituting 0 exactly when that result is
falsy (`NaN` or zero); consequently no reachable modal state ever holds
`NaN` in any field, so `calculateDraglineBalance` never sees `NaN`. -/
theorem stored_value_never_nan :
    (∀ parsed : JSNum, storedValue parsed ≠ JSNum.nan) ∧
      (∀ parsed : JSNum, (parsed = JSNum.nan ∨ parsed = JSNum.num 0) →
        storedValue parsed = JSNum.num 0) ∧
      (∀ parsed : JSNum, parsed.truthy = true → storedValue parsed = parsed) ∧
      (∀ st : ModalState, Reachable st → ∀ f : Field, st f ≠ JSNum.nan) := by
  have hnn : ∀ parsed : JSNum, storedValue parsed ≠ JSNum.nan := by
    intro parsed
    unfold storedValue jsOr
    split
    · rename_i ht
      rintro rfl
      simp [JSNum.truthy] at ht
    · simp
  have hfalsy : ∀ parsed : JSNum, (parsed = JSNum.nan ∨ parsed = JSNum.num 0) →
      storedValue parsed = JSNum.num 0 := by
    rintro parsed (rfl | rfl) <;> simp [storedValue, jsOr, JSNum.truthy]
  have htruthy : ∀ parsed : JSNum, parsed.truthy = true →
      storedValue parsed = parsed := by
    intro parsed ht
    simp [storedValue, jsOr, ht]
  refine ⟨hnn, hfalsy, htruthy, ?_⟩
  intro st hst
  induction hst with
  | init =>
    intro f
    cases f <;> simp [initialState]
  | step st f parsed hst ih =>
    intro g
    by_cases hg : g = f
    · simpa [handleInputChange, hg] using hnn parsed
    · simpa [handleInputChange, hg] using ih g

/-- Witness for C10 (amended): the substitution and preservation
branches at concrete parsed values, and the no-`NaN` invariant at the
initial state. -/
theorem stored_value_never_nan_witness :
    storedValue (JSNum.num 0) = JSNum.num 0 ∧
      storedValue (JSNum.num 5) = JSNum.num 5 ∧
      initialState Field.cutWidth ≠ JSNum.nan :=
  ⟨stored_value_never_nan.2.1 (JSNum.num 0) (Or.inr rfl),
    stored_value_never_nan.2.2.1 (JSNum.num 5)
      (by norm_num [JSNum.truthy]),
    stored_value_never_nan.2.2.2 initialState Reachable.init Field.cutWidth⟩

end Dragline
